import Mathlib

/-
Verification development for the D3D12 box-demo application (Win32Main.cpp).

The embedding models the CPU/GPU synchronization core of the program:
the fence-based FlushCommandQueue protocol, the swap-chain back-buffer
cursor advanced by Draw, the OnResize rebuild, the CreateDefaultBuffer
upload pipeline, the CalcConstantBufferByteSize alignment helper, the
InitD3D multisample-quality check, the OnMouseMove camera mutation and
the WndProc resize-drag protocol.

Modelling conventions:
- 32-bit unsigned arithmetic is Nat with explicit reduction modulo 2 ^ 32.
- float arithmetic is modelled exactly over the rationals; the float
  literal 3.1415926535f of MathHelper::Pi (and the DirectXMath constant
  XM_PI) is taken at its source-text value piF.  The one irrational
  scalar the program computes, cot of half the vertical field of view
  inside XMMatrixPerspectiveFovLH, is threaded through as an abstract
  rational parameter cotHalfFovY, since no claim depends on its value.
- the GPU is a second actor draining a command queue in order; its
  observable state is the fence completed value plus buffer memory.
- D3D calls that can fail are driven by explicit environment records of
  success flags; all claims are about the paths those flags select.
-/

namespace D3D12Demo

/-- Subset of D3D12_RESOURCE_STATES used by the program. -/
inductive ResState where
  | common
  | genericRead
  | copyDest
  | present
  | renderTarget
  | depthWrite
  deriving DecidableEq, Repr

/-- Commands the program records into its single command list. -/
inductive Cmd where
  | transition (res : Nat) (stateBefore stateAfter : ResState)
  | copyBuffer (dst src : Nat) (numBytes : Nat)
  | clearRenderTarget (res : Nat)
  | clearDepthStencil
  | setRenderTargets (res : Nat)
  | drawIndexed (indexCount : Nat)
  deriving DecidableEq, Repr

/-- Resource memory: maps a resource id to its byte contents. -/
def Mem : Type := Nat → List Nat

/-- Effect of one recorded command on resource memory.  Only the buffer
copy issued by UpdateSubresources writes buffer memory in this model;
barriers, clears and draw calls leave buffer contents alone. -/
def execCmd (m : Mem) : Cmd → Mem
  | Cmd.copyBuffer dst src n => fun r => if r = dst then (m src).take n else m r
  | _ => m

/-- Execute a recorded command list front to back. -/
def execCmds (cmds : List Cmd) (m : Mem) : Mem := cmds.foldl execCmd m

/-- Items on the GPU command queue: a submitted command list, or the
fence signal submitted by ID3D12CommandQueue Signal. -/
inductive QItem where
  | work (cmds : List Cmd)
  | signal (v : Nat)
  deriving DecidableEq, Repr

/-- Memory after the GPU retires a whole queue in order. -/
def execQueue (q : List QItem) (m : Mem) : Mem :=
  q.foldl
    (fun mm it =>
      match it with
      | QItem.work cmds => execCmds cmds mm
      | QItem.signal _ => mm)
    m

/-- Fence values carried by the signal items of a queue. -/
def signalValues (q : List QItem) : List Nat :=
  q.filterMap
    (fun it =>
      match it with
      | QItem.signal v => some v
      | QItem.work _ => none)

/-- GPU-side state: the fence completed value (ID3D12Fence
GetCompletedValue), the pending queue, and resource memory. -/
structure GpuState where
  completed : Nat
  queue : List QItem
  mem : Mem

/-- The GPU retires the head item of its queue: command lists execute,
a signal raises the fence completed value. -/
def gpuStep (g : GpuState) : GpuState :=
  match g.queue with
  | [] => g
  | QItem.work cmds :: rest => { g with queue := rest, mem := execCmds cmds g.mem }
  | QItem.signal v :: rest => { g with queue := rest, completed := max g.completed v }

/-- The OS wait primitive: SetEventOnCompletion plus WaitForSingleObject
returns once the fence completed value reaches the target; meanwhile the
GPU keeps retiring queue items.  Fuel bounds the number of GPU steps. -/
def waitForFence : Nat → Nat → GpuState → GpuState
  | 0, _, g => g
  | fuel + 1, target, g =>
    if target ≤ g.completed then g else waitForFence fuel target (gpuStep g)

/-- CPU-side synchronization state: the DxApp member m_CurrentFence and
the GPU actor. -/
structure SyncState where
  m_CurrentFence : Nat
  gpu : GpuState

/-- ExecuteCommandLists: append a closed command list to the queue. -/
def enqueueWork (cmds : List Cmd) (s : SyncState) : SyncState :=
  { s with gpu := { s.gpu with queue := s.gpu.queue ++ [QItem.work cmds] } }

/-- FlushCommandQueue: increment m_CurrentFence, submit Signal with the
new value behind all previously enqueued work, and if the fence has not
yet reached it, block until it does; the fuel of the wait is the length
of the queue holding the new signal, enough for the GPU to drain it. -/
def FlushCommandQueue (s : SyncState) : SyncState :=
  { m_CurrentFence := s.m_CurrentFence + 1
    gpu :=
      if s.gpu.completed < s.m_CurrentFence + 1 then
        waitForFence
          (s.gpu.queue ++ [QItem.signal (s.m_CurrentFence + 1)]).length
          (s.m_CurrentFence + 1)
          { s.gpu with queue := s.gpu.queue ++ [QItem.signal (s.m_CurrentFence + 1)] }
      else { s.gpu with queue := s.gpu.queue ++ [QItem.signal (s.m_CurrentFence + 1)] } }

/-- Iterated FlushCommandQueue. -/
def flushN : Nat → SyncState → SyncState
  | 0, s => s
  | n + 1, s => flushN n (FlushCommandQueue s)

/-- Well-formedness maintained by the program: the fence completed value
never exceeds m_CurrentFence, and every signal still pending on the
queue carries a value at most m_CurrentFence. -/
def WF (s : SyncState) : Prop :=
  s.gpu.completed ≤ s.m_CurrentFence ∧
    ∀ v ∈ signalValues s.gpu.queue, v ≤ s.m_CurrentFence

/-- Primitive CPU-side actions the program performs, at the granularity
relevant to blocking behaviour. -/
inductive CpuAction where
  | enqueue (item : QItem)
  | presentFrame
  | waitFenceEvent (target : Nat)
  | cbWrite
  deriving DecidableEq, Repr

/-- Whether an action blocks the calling thread on GPU completion. -/
def isWait : CpuAction → Bool
  | CpuAction.waitFenceEvent _ => true
  | _ => false

/-- Settings member: static int const s_SwapChainBufferCount = 2. -/
def s_SwapChainBufferCount : Nat := 2

/-- Source-text value of the float constant MathHelper::Pi, also used
for the DirectXMath constant XM_PI. -/
def piF : ℚ := 3.1415926535

/-- MathHelper Clamp: x below low gives low, x above high gives high. -/
def Clamp (x low high : ℚ) : ℚ :=
  if x < low then low else if high < x then high else x

/-- XMConvertToRadians: degrees times pi over 180. -/
def XMConvertToRadians (deg : ℚ) : ℚ := deg * (piF / 180)

/-- Row-major 4x4 matrix over the rationals. -/
structure Mat4 where
  m00 : ℚ
  m01 : ℚ
  m02 : ℚ
  m03 : ℚ
  m10 : ℚ
  m11 : ℚ
  m12 : ℚ
  m13 : ℚ
  m20 : ℚ
  m21 : ℚ
  m22 : ℚ
  m23 : ℚ
  m30 : ℚ
  m31 : ℚ
  m32 : ℚ
  m33 : ℚ

/-- MathHelper Identity4x4. -/
def Identity4x4 : Mat4 :=
  ⟨1, 0, 0, 0, 0, 1, 0, 0, 0, 0, 1, 0, 0, 0, 0, 1⟩

/-- XMMatrixPerspectiveFovLH: the DirectXMath perspective projection.
Height is the cotangent of half the vertical field of view, passed here
as the abstract parameter cotHalfFovY; Width is Height divided by the
aspect; fRange is FarZ over FarZ minus NearZ. -/
def XMMatrixPerspectiveFovLH (cotHalfFovY aspect nearZ farZ : ℚ) : Mat4 :=
  let height := cotHalfFovY
  let width := height / aspect
  let fRange := farZ / (farZ - nearZ)
  ⟨width, 0, 0, 0,
   0, height, 0, 0,
   0, 0, fRange, 1,
   0, 0, -(fRange * nearZ), 0⟩

/-- Aspect encoded by a perspective matrix: entry m11 over entry m00. -/
def projAspect (m : Mat4) : ℚ := m.m11 / m.m00

/-- D3D12_VIEWPORT fields, over the rationals. -/
structure Viewport where
  topLeftX : ℚ
  topLeftY : ℚ
  width : ℚ
  height : ℚ
  minDepth : ℚ
  maxDepth : ℚ
  deriving DecidableEq, Repr

/-- Scissor rectangle, four ints. -/
structure RectI where
  left : Int
  top : Int
  right : Int
  bottom : Int
  deriving DecidableEq, Repr

/-- The members of the global DxApp struct the claims depend on, plus
the synchronization state. -/
structure DxApp where
  sync : SyncState
  m_DeviceCreated : Bool
  m_CurrentBackBuffer : Nat
  m_ClientWidth : Int
  m_ClientHeight : Int
  m_ScreenViewport : Viewport
  m_ScissorRect : RectI
  m_Proj : Mat4
  m_Theta : ℚ
  m_Phi : ℚ
  m_Radius : ℚ
  m_LastMousePosX : Int
  m_LastMousePosY : Int
  m_IsPaused : Bool
  m_IsResizing : Bool
  m_IsMinimized : Bool
  m_IsMaximized : Bool
  m_MsaaEnabled : Bool
  m_SwapChainBufferCountLive : Nat

/-- DxApp AspectRatio: client width over client height, as a float. -/
def AspectRatio (s : DxApp) : ℚ :=
  (s.m_ClientWidth : ℚ) / (s.m_ClientHeight : ℚ)

/-- Resource id of the depth-stencil buffer in app-level recordings. -/
def depthStencilId : Nat := 2

/-- Commands OnResize records: the transition of the new depth buffer
from the common state into depth-write usage. -/
def resizeCmds : List Cmd :=
  [Cmd.transition depthStencilId ResState.common ResState.depthWrite]

/-- Commands Draw records against the back buffer at the given index:
transition present to render target, clears, bind targets, the single
indexed draw of the 36 cube indices, transition back to present. -/
def drawCmds (idx : Nat) : List Cmd :=
  [Cmd.transition idx ResState.present ResState.renderTarget,
   Cmd.clearRenderTarget idx,
   Cmd.clearDepthStencil,
   Cmd.setRenderTargets idx,
   Cmd.drawIndexed 36,
   Cmd.transition idx ResState.renderTarget ResState.present]

/-- OnResize, success path: flush, release and resize the swap-chain
buffers to the configured count, reset the back-buffer cursor to 0,
recreate views and the depth buffer, record its transition, execute and
flush again, then recompute viewport, scissor rect and the projection
matrix from the new aspect ratio (fov 0.25 pi, near 1, far 1000). -/
def OnResize (cotHalfFovY : ℚ) (s : DxApp) : DxApp :=
  let sync1 := FlushCommandQueue s.sync
  let sync2 := enqueueWork resizeCmds sync1
  let sync3 := FlushCommandQueue sync2
  { s with
    sync := sync3
    m_SwapChainBufferCountLive := s_SwapChainBufferCount
    m_CurrentBackBuffer := 0
    m_ScreenViewport :=
      ⟨0, 0, (s.m_ClientWidth : ℚ), (s.m_ClientHeight : ℚ), 0, 1⟩
    m_ScissorRect := ⟨0, 0, s.m_ClientWidth, s.m_ClientHeight⟩
    m_Proj := XMMatrixPerspectiveFovLH cotHalfFovY (AspectRatio s) 1 1000 }

/-- Draw, success path: re-record the frame command list against the
current back buffer, execute it, present, advance the back-buffer
cursor by one modulo the buffer count, then flush. -/
def Draw (s : DxApp) : DxApp :=
  let sync1 := enqueueWork (drawCmds s.m_CurrentBackBuffer) s.sync
  { s with
    sync := FlushCommandQueue sync1
    m_CurrentBackBuffer :=
      (s.m_CurrentBackBuffer + 1) % s_SwapChainBufferCount }

/-- CreateSwapChain: releases and recreates the swap chain with the
configured fixed buffer count. -/
def CreateSwapChain (s : DxApp) : DxApp :=
  { s with m_SwapChainBufferCountLive := s_SwapChainBufferCount }

/-- SetMsaaEnabled: no-op when unchanged, otherwise flip the flag,
recreate the swap chain and rerun OnResize. -/
def SetMsaaEnabled (cotHalfFovY : ℚ) (enabled : Bool) (s : DxApp) : DxApp :=
  if s.m_MsaaEnabled = enabled then s
  else OnResize cotHalfFovY (CreateSwapChain { s with m_MsaaEnabled := enabled })

/-- OnMouseMove: with the left button held, accumulate 0.25 degree per
pixel into theta and phi, clamping only phi to the range 0.1 to pi
minus 0.1; with the right button held, move the radius by 0.005 units
per pixel clamped to the range 3 to 15; always store the new mouse
position. -/
def OnMouseMove (l r : Bool) (x y : Int) (s : DxApp) : DxApp :=
  let s1 :=
    if l = true then
      let dx := XMConvertToRadians ((1 / 4 : ℚ) * ((x - s.m_LastMousePosX : Int) : ℚ))
      let dy := XMConvertToRadians ((1 / 4 : ℚ) * ((y - s.m_LastMousePosY : Int) : ℚ))
      { s with
        m_Theta := s.m_Theta + dx
        m_Phi := Clamp (s.m_Phi + dy) (1 / 10) (piF - 1 / 10) }
    else if r = true then
      let dx := (1 / 200 : ℚ) * ((x - s.m_LastMousePosX : Int) : ℚ)
      let dy := (1 / 200 : ℚ) * ((y - s.m_LastMousePosY : Int) : ℚ)
      { s with m_Radius := Clamp (s.m_Radius + dx - dy) 3 15 }
    else s
  { s1 with m_LastMousePosX := x, m_LastMousePosY := y }

/-- Heap categories of committed buffer resources. -/
inductive HeapType where
  | defaultHeap
  | uploadHeap
  deriving DecidableEq, Repr

/-- Descriptor of a committed buffer: heap, byte size, initial state. -/
structure BufferDesc where
  heap : HeapType
  size : Nat
  state : ResState
  deriving DecidableEq, Repr

/-- Success flags for the two CreateCommittedResource calls inside
CreateDefaultBuffer. -/
structure AllocEnv where
  defaultAllocOk : Bool
  uploadAllocOk : Bool
  deriving DecidableEq, Repr

/-- Resource id of the default-heap buffer CreateDefaultBuffer makes. -/
def defaultBufferId : Nat := 0

/-- Resource id of the upload-heap buffer CreateDefaultBuffer makes. -/
def uploadBufferId : Nat := 1

/-- Everything observable about one CreateDefaultBuffer call: the
returned pointer, the two allocations, the bytes memcpy-ed into the
upload buffer by UpdateSubresources, the commands recorded into the
callers command list, and whether an error dialog was shown. -/
structure CDBResult where
  returned : Option Nat
  defaultRes : Option BufferDesc
  uploadRes : Option BufferDesc
  uploadContents : List Nat
  cmds : List Cmd
  errorReported : Bool
  deriving DecidableEq, Repr

/-- CreateDefaultBuffer: allocate a default-heap buffer of byteSize in
the common state; on failure report and return null.  Allocate an
upload-heap buffer of byteSize in the generic-read state; on failure
report and return null.  Otherwise memcpy byteSize bytes of data into
the upload buffer and record transition to copy-dest, the full-range
copy, and transition to generic-read; return the default buffer. -/
def CreateDefaultBuffer (env : AllocEnv) (data : List Nat) (byteSize : Nat) :
    CDBResult :=
  if env.defaultAllocOk = false then
    { returned := none, defaultRes := none, uploadRes := none,
      uploadContents := [], cmds := [], errorReported := true }
  else
    let dRes : BufferDesc :=
      { heap := HeapType.defaultHeap, size := byteSize, state := ResState.common }
    if env.uploadAllocOk = false then
      { returned := none, defaultRes := some dRes, uploadRes := none,
        uploadContents := [], cmds := [], errorReported := true }
    else
      let uRes : BufferDesc :=
        { heap := HeapType.uploadHeap, size := byteSize,
          state := ResState.genericRead }
      { returned := some defaultBufferId,
        defaultRes := some dRes,
        uploadRes := some uRes,
        uploadContents := data.take byteSize,
        cmds :=
          [Cmd.transition defaultBufferId ResState.common ResState.copyDest,
           Cmd.copyBuffer defaultBufferId uploadBufferId byteSize,
           Cmd.transition defaultBufferId ResState.copyDest ResState.genericRead],
        errorReported := false }

/-- Vertex buffer byte size of the cube: 8 vertices of 28 bytes. -/
def vbByteSize : Nat := 8 * 28

/-- Index buffer byte size of the cube: 36 indices of 2 bytes. -/
def ibByteSize : Nat := 36 * 2

/-- Commands recorded during OnInitialize by the two CreateDefaultBuffer
calls of BuildBoxGeometry (vertex then index buffer). -/
def initCmds : List Cmd :=
  (CreateDefaultBuffer ⟨true, true⟩ [] vbByteSize).cmds ++
    (CreateDefaultBuffer ⟨true, true⟩ [] ibByteSize).cmds

/-- The top-level operations of the program, split so that composite
operations are concatenations: Draw is drawBodyOp then flushOp, OnResize
is flushOp then resizeBodyOp then flushOp, OnInitialize is initBodyOp
then flushOp. -/
inductive CpuOp where
  | updateOp
  | mouseMoveOp
  | drawBodyOp
  | resizeBodyOp
  | initBodyOp
  | flushOp
  deriving DecidableEq, Repr

/-- The primitive CPU actions each operation performs, read off the
source: Update only memcpy-writes the mapped constant buffer;
OnMouseMove is pure CPU state; the Draw body executes its command list
and presents; the OnResize and OnInitialize bodies execute their command
lists; FlushCommandQueue submits a signal and, when the fence is behind,
blocks on the fence event. -/
def opActions : CpuOp → DxApp → List CpuAction
  | CpuOp.updateOp, _ => [CpuAction.cbWrite]
  | CpuOp.mouseMoveOp, _ => []
  | CpuOp.drawBodyOp, s =>
    [CpuAction.enqueue (QItem.work (drawCmds s.m_CurrentBackBuffer)),
     CpuAction.presentFrame]
  | CpuOp.resizeBodyOp, _ => [CpuAction.enqueue (QItem.work resizeCmds)]
  | CpuOp.initBodyOp, _ => [CpuAction.enqueue (QItem.work initCmds)]
  | CpuOp.flushOp, s =>
    CpuAction.enqueue (QItem.signal (s.sync.m_CurrentFence + 1)) ::
      (if s.sync.gpu.completed < s.sync.m_CurrentFence + 1 then
        [CpuAction.waitFenceEvent (s.sync.m_CurrentFence + 1)]
      else [])

/-- State-transforming operations of the app, for trace properties. -/
inductive AppOp where
  | mouseMove (l r : Bool) (x y : Int)
  | draw
  | resize (cotHalfFovY : ℚ)
  | setMsaa (cotHalfFovY : ℚ) (enabled : Bool)
  | flushOnly

/-- One app operation applied to the state. -/
def appStep : AppOp → DxApp → DxApp
  | AppOp.mouseMove l r x y, s => OnMouseMove l r x y s
  | AppOp.draw, s => Draw s
  | AppOp.resize c, s => OnResize c s
  | AppOp.setMsaa c b, s => SetMsaaEnabled c b s
  | AppOp.flushOnly, s => { s with sync := FlushCommandQueue s.sync }

/-- A sequence of app operations applied to the state. -/
def runApp (ops : List AppOp) (a : DxApp) : DxApp :=
  ops.foldl (fun t op => appStep op t) a

/-- WM_SIZE payload: minimized, maximized or restored. -/
inductive SizeKind where
  | minimized
  | maximized
  | restored
  deriving DecidableEq, Repr

/-- Window messages handled by WndProc that the resize protocol uses. -/
inductive Msg where
  | size (w h : Int) (kind : SizeKind)
  | enterSizeMove
  | exitSizeMove
  | activate (active : Bool)
  deriving DecidableEq, Repr

/-- WndProc: the message handler, returning the new state and the
number of OnResize invocations the message triggered.  WM_SIZE first
stores the new client dimensions, then, only when the device exists,
dispatches on the size kind; a restored size during an interactive drag
takes no further action.  WM_ENTERSIZEMOVE pauses and raises the
resizing flag; WM_EXITSIZEMOVE clears both and runs OnResize once. -/
def WndProc (cotHalfFovY : ℚ) (s : DxApp) : Msg → DxApp × Nat
  | Msg.size w h kind =>
    let s1 := { s with m_ClientWidth := w, m_ClientHeight := h }
    if s1.m_DeviceCreated = false then (s1, 0)
    else
      match kind with
      | SizeKind.minimized =>
        ({ s1 with m_IsPaused := true, m_IsMinimized := true,
                   m_IsMaximized := false }, 0)
      | SizeKind.maximized =>
        (OnResize cotHalfFovY
          { s1 with m_IsPaused := false, m_IsMinimized := false,
                    m_IsMaximized := true }, 1)
      | SizeKind.restored =>
        if s1.m_IsMinimized = true then
          (OnResize cotHalfFovY
            { s1 with m_IsPaused := false, m_IsMinimized := false }, 1)
        else if s1.m_IsMaximized = true then
          (OnResize cotHalfFovY
            { s1 with m_IsPaused := false, m_IsMaximized := false }, 1)
        else if s1.m_IsResizing = true then (s1, 0)
        else (OnResize cotHalfFovY s1, 1)
  | Msg.enterSizeMove =>
    ({ s with m_IsPaused := true, m_IsResizing := true }, 0)
  | Msg.exitSizeMove =>
    (OnResize cotHalfFovY { s with m_IsPaused := false, m_IsResizing := false }, 1)
  | Msg.activate active =>
    if active = true then ({ s with m_IsPaused := false }, 0)
    else ({ s with m_IsPaused := true }, 0)

/-- Process a list of messages, accumulating OnResize invocations. -/
def runMsgs (cotHalfFovY : ℚ) (s : DxApp) : List Msg → DxApp × Nat
  | [] => (s, 0)
  | m :: ms =>
    let r1 := WndProc cotHalfFovY s m
    let r2 := runMsgs cotHalfFovY r1.1 ms
    (r2.1, r1.2 + r2.2)

/-- Restored-size messages for a list of client dimensions. -/
def sizeMsgs (sizes : List (Int × Int)) : List Msg :=
  sizes.map (fun p => Msg.size p.1 p.2 SizeKind.restored)

/-- Effect of an intermediate drag size event: only the stored client
dimensions change. -/
def applySizeOnly (s : DxApp) (p : Int × Int) : DxApp :=
  { s with m_ClientWidth := p.1, m_ClientHeight := p.2 }

/-- Success flags and query results for the steps of InitD3D. -/
structure InitEnv where
  debugBuild : Bool
  factoryOk : Bool
  hardwareDeviceOk : Bool
  warpEnumOk : Bool
  warpDeviceOk : Bool
  fenceOk : Bool
  msaaQueryOk : Bool
  msaaNumQualityLevels : Nat
  commandObjectsOk : Bool
  swapChainOk : Bool
  descriptorHeapsOk : Bool
  deriving DecidableEq, Repr

/-- How a run of InitD3D ends: an error dialog followed by returning
false, a failed debug-build assert that aborts the process, or a normal
return of true carrying the stored MSAA quality level count. -/
inductive InitOutcome where
  | returnedFalse
  | assertAborted
  | returnedTrue (msaaQuality : Nat)
  deriving DecidableEq, Repr

/-- InitD3D: factory, hardware device with WARP fallback, fence, the
multisample quality-level query (whose zero-level result is only
checked by a debug-build assert), then command objects, swap chain and
descriptor heaps.  Every FAILED branch reports and returns false. -/
def InitD3D (e : InitEnv) : InitOutcome :=
  if !e.factoryOk then InitOutcome.returnedFalse
  else if !e.hardwareDeviceOk && !e.warpEnumOk then InitOutcome.returnedFalse
  else if !e.hardwareDeviceOk && e.warpEnumOk && !e.warpDeviceOk then
    InitOutcome.returnedFalse
  else if !e.fenceOk then InitOutcome.returnedFalse
  else if !e.msaaQueryOk then InitOutcome.returnedFalse
  else if e.debugBuild && e.msaaNumQualityLevels == 0 then
    InitOutcome.assertAborted
  else if !e.commandObjectsOk then InitOutcome.returnedFalse
  else if !e.swapChainOk then InitOutcome.returnedFalse
  else if !e.descriptorHeapsOk then InitOutcome.returnedFalse
  else InitOutcome.returnedTrue e.msaaNumQualityLevels

/-- Modulus of the 32-bit unsigned UINT type. -/
def UINT_MOD : Nat := 2 ^ 32

/-- CalcConstantBufferByteSize: the UINT expression
(byteSize + 255) AND NOT 255, with the addition taken modulo 2 ^ 32 and
NOT 255 equal to 0xFFFFFF00 on 32 bits. -/
def CalcConstantBufferByteSize (byteSize : Nat) : Nat :=
  ((byteSize + 255) % UINT_MOD) &&& 0xFFFFFF00

/-- The least multiple of 256 that is at least x. -/
def roundUpTo256 (x : Nat) : Nat := 256 * ((x + 255) / 256)

/-- Empty resource memory. -/
def memEmpty : Mem := fun _ => []

/-- Freshly created synchronization state: fence value 0, nothing
pending, fence created at completed value 0. -/
def sync0 : SyncState :=
  { m_CurrentFence := 0, gpu := { completed := 0, queue := [], mem := memEmpty } }

/-- A synchronization state mid-run, with a frame of work and an old
signal still pending. -/
def syncPending : SyncState :=
  { m_CurrentFence := 3,
    gpu := { completed := 1,
             queue := [QItem.work (drawCmds 0), QItem.signal 2],
             mem := memEmpty } }

/-- Zero viewport, the state of the global before the first OnResize. -/
def viewport0 : Viewport := ⟨0, 0, 0, 0, 0, 0⟩

/-- The zero-then-member-initialized global g_DxApp at program start:
client area 800 by 600, theta 1.5 pi, phi a quarter pi, radius 5. -/
def app0 : DxApp :=
  { sync := sync0
    m_DeviceCreated := false
    m_CurrentBackBuffer := 0
    m_ClientWidth := 800
    m_ClientHeight := 600
    m_ScreenViewport := viewport0
    m_ScissorRect := ⟨0, 0, 0, 0⟩
    m_Proj := Identity4x4
    m_Theta := (3 / 2) * piF
    m_Phi := piF / 4
    m_Radius := 5
    m_LastMousePosX := 0
    m_LastMousePosY := 0
    m_IsPaused := false
    m_IsResizing := false
    m_IsMinimized := false
    m_IsMaximized := false
    m_MsaaEnabled := false
    m_SwapChainBufferCountLive := s_SwapChainBufferCount }

/-- The global after InitD3D succeeded. -/
def appDev : DxApp := { app0 with m_DeviceCreated := true }

/-- Initial memory for one CreateDefaultBuffer round trip: the default
buffer zero-filled at its size, the upload buffer holding the bytes
UpdateSubresources memcpy-ed into it. -/
def uploadInitialMem (data : List Nat) : Mem :=
  fun i =>
    if i = defaultBufferId then List.replicate data.length 0
    else if i = uploadBufferId then
      (CreateDefaultBuffer ⟨true, true⟩ data data.length).uploadContents
    else []

/-- Synchronization state at the point OnInitialize executes the copy
commands: nothing pending yet, memory as above. -/
def uploadInitialSync (data : List Nat) : SyncState :=
  { m_CurrentFence := 0,
    gpu := { completed := 0, queue := [], mem := uploadInitialMem data } }

/-- Environment in which every InitD3D step succeeds but the quality
query reports zero supported levels, in a release build. -/
def envReleaseZeroLevels : InitEnv :=
  { debugBuild := false
    factoryOk := true
    hardwareDeviceOk := true
    warpEnumOk := true
    warpDeviceOk := true
    fenceOk := true
    msaaQueryOk := true
    msaaNumQualityLevels := 0
    commandObjectsOk := true
    swapChainOk := true
    descriptorHeapsOk := true }

/-- The same zero-level environment in a debug build. -/
def envDebugZeroLevels : InitEnv := { envReleaseZeroLevels with debugBuild := true }

/-- Environment in which the quality-level query itself fails. -/
def envQueryFailed : InitEnv := { envReleaseZeroLevels with msaaQueryOk := false }

/-! Helper lemmas about the synchronization model. -/

theorem signalValues_append (a b : List QItem) :
    signalValues (a ++ b) = signalValues a ++ signalValues b := by
  simp [signalValues]

theorem execQueue_work (cmds : List Cmd) (q : List QItem) (m : Mem) :
    execQueue (QItem.work cmds :: q) m = execQueue q (execCmds cmds m) := rfl

theorem execQueue_signal (v : Nat) (q : List QItem) (m : Mem) :
    execQueue (QItem.signal v :: q) m = execQueue q m := rfl

theorem waitForFence_drain (q : List QItem) :
    ∀ (c target : Nat) (m : Mem), c < target →
      (∀ v ∈ signalValues q, v < target) →
      waitForFence (q.length + 1) target
        { completed := c, queue := q ++ [QItem.signal target], mem := m }
        = { completed := target, queue := [], mem := execQueue q m } := by
  induction q with
  | nil =>
    intro c target m hc _
    have h1 : ¬ target ≤ c := Nat.not_le.mpr hc
    simp [waitForFence, h1, gpuStep, execQueue,
      Nat.max_eq_right (Nat.le_of_lt hc)]
  | cons it rest ih =>
    intro c target m hc hsig
    have h1 : ¬ target ≤ c := Nat.not_le.mpr hc
    cases it with
    | work cmds =>
      have hrest : ∀ v ∈ signalValues rest, v < target := by
        intro v hv
        exact hsig v (by simp [signalValues] at hv ⊢; exact hv)
      have hstep :
          waitForFence ((QItem.work cmds :: rest).length + 1) target
            { completed := c,
              queue := (QItem.work cmds :: rest) ++ [QItem.signal target],
              mem := m }
            = waitForFence (rest.length + 1) target
              { completed := c, queue := rest ++ [QItem.signal target],
                mem := execCmds cmds m } := by
        simp [waitForFence, h1, gpuStep]
      rw [hstep, ih c target (execCmds cmds m) hc hrest, execQueue_work]
    | signal v =>
      have hv : v < target := hsig v (by simp [signalValues])
      have hrest : ∀ u ∈ signalValues rest, u < target := by
        intro u hu
        exact hsig u (by simp [signalValues] at hu ⊢; exact Or.inr hu)
      have hmax : max c v < target := Nat.max_lt.mpr ⟨hc, hv⟩
      have hstep :
          waitForFence ((QItem.signal v :: rest).length + 1) target
            { completed := c,
              queue := (QItem.signal v :: rest) ++ [QItem.signal target],
              mem := m }
            = waitForFence (rest.length + 1) target
              { completed := max c v, queue := rest ++ [QItem.signal target],
                mem := m } := by
        simp [waitForFence, h1, gpuStep]
      rw [hstep, ih (max c v) target m hmax hrest, execQueue_signal]

theorem FlushCommandQueue_spec (s : SyncState) (h : WF s) :
    FlushCommandQueue s =
      { m_CurrentFence := s.m_CurrentFence + 1,
        gpu := { completed := s.m_CurrentFence + 1, queue := [],
                 mem := execQueue s.gpu.queue s.gpu.mem } } := by
  obtain ⟨hc, hsig⟩ := h
  have hlt : s.gpu.completed < s.m_CurrentFence + 1 := Nat.lt_succ_of_le hc
  have hall : ∀ v ∈ signalValues s.gpu.queue, v < s.m_CurrentFence + 1 :=
    fun v hv => Nat.lt_succ_of_le (hsig v hv)
  have hlen :
      (s.gpu.queue ++ [QItem.signal (s.m_CurrentFence + 1)]).length
        = s.gpu.queue.length + 1 := by simp
  have hdrain := waitForFence_drain s.gpu.queue s.gpu.completed
    (s.m_CurrentFence + 1) s.gpu.mem hlt hall
  unfold FlushCommandQueue
  rw [if_pos hlt, hlen]
  exact congrArg (fun g => SyncState.mk (s.m_CurrentFence + 1) g) hdrain

theorem WF_FlushCommandQueue (s : SyncState) (h : WF s) :
    WF (FlushCommandQueue s) := by
  rw [FlushCommandQueue_spec s h]
  exact ⟨Nat.le_refl _, by simp [signalValues]⟩

theorem WF_enqueueWork (cmds : List Cmd) (s : SyncState) (h : WF s) :
    WF (enqueueWork cmds s) := by
  obtain ⟨hc, hsig⟩ := h
  refine ⟨hc, ?_⟩
  intro v hv
  have : v ∈ signalValues s.gpu.queue := by
    simpa [enqueueWork, signalValues_append, signalValues] using hv
  exact hsig v this

theorem FlushCommandQueue_fence (s : SyncState) :
    (FlushCommandQueue s).m_CurrentFence = s.m_CurrentFence + 1 := rfl

theorem flushN_fence (n : Nat) : ∀ s : SyncState,
    (flushN n s).m_CurrentFence = s.m_CurrentFence + n := by
  induction n with
  | zero => intro s; rfl
  | succ k ih =>
    intro s
    show (flushN k (FlushCommandQueue s)).m_CurrentFence = _
    rw [ih (FlushCommandQueue s), FlushCommandQueue_fence]
    omega

theorem OnMouseMove_sync (l r : Bool) (x y : Int) (s : DxApp) :
    (OnMouseMove l r x y s).sync = s.sync := by
  cases l <;> cases r <;> rfl

theorem appStep_fence_mono (op : AppOp) (a : DxApp) :
    a.sync.m_CurrentFence ≤ (appStep op a).sync.m_CurrentFence := by
  cases op with
  | mouseMove l r x y =>
    show a.sync.m_CurrentFence ≤ (OnMouseMove l r x y a).sync.m_CurrentFence
    rw [OnMouseMove_sync]
  | draw => exact Nat.le_succ _
  | resize c => exact Nat.le_add_right _ 2
  | setMsaa c b =>
    show a.sync.m_CurrentFence ≤ (SetMsaaEnabled c b a).sync.m_CurrentFence
    unfold SetMsaaEnabled
    split
    · exact Nat.le_refl _
    · exact Nat.le_add_right _ 2
  | flushOnly => exact Nat.le_succ _

theorem runApp_fence_mono (ops : List AppOp) : ∀ a : DxApp,
    a.sync.m_CurrentFence ≤ (runApp ops a).sync.m_CurrentFence := by
  induction ops with
  | nil => intro a; exact Nat.le_refl _
  | cons op rest ih =>
    intro a
    exact Nat.le_trans (appStep_fence_mono op a) (ih (appStep op a))

theorem appStep_WF (op : AppOp) (a : DxApp) (h : WF a.sync) :
    WF (appStep op a).sync := by
  cases op with
  | mouseMove l r x y =>
    show WF (OnMouseMove l r x y a).sync
    rw [OnMouseMove_sync]
    exact h
  | draw => exact WF_FlushCommandQueue _ (WF_enqueueWork _ _ h)
  | resize c =>
    exact WF_FlushCommandQueue _ (WF_enqueueWork _ _ (WF_FlushCommandQueue _ h))
  | setMsaa c b =>
    show WF (SetMsaaEnabled c b a).sync
    unfold SetMsaaEnabled
    split
    · exact h
    · exact WF_FlushCommandQueue _ (WF_enqueueWork _ _ (WF_FlushCommandQueue _ h))
  | flushOnly => exact WF_FlushCommandQueue _ h

/-! Helper lemmas about clamping, the bitmask, and message runs. -/

theorem Clamp_bounds (x low high : ℚ) (h : low ≤ high) :
    low ≤ Clamp x low high ∧ Clamp x low high ≤ high := by
  unfold Clamp
  split_ifs with h1 h2
  · exact ⟨le_refl _, h⟩
  · exact ⟨h, le_refl _⟩
  · exact ⟨le_of_not_lt h1, le_of_not_lt h2⟩

theorem and_mask_FFFFFF00 (n : Nat) (hn : n < 2 ^ 32) :
    n &&& 0xFFFFFF00 = 256 * (n / 256) := by
  have hmask : (0xFFFFFF00 : Nat) = (2 ^ 24 - 1) <<< 8 := by
    norm_num [Nat.shiftLeft_eq]
  have hrhs : 256 * (n / 256) = (n >>> 8) <<< 8 := by
    rw [Nat.shiftLeft_eq, Nat.shiftRight_eq_div_pow]
    ring
  rw [hmask, hrhs]
  apply Nat.eq_of_testBit_eq
  intro i
  rw [Nat.testBit_and, Nat.testBit_shiftLeft, Nat.testBit_shiftLeft,
    Nat.testBit_two_pow_sub_one]
  rcases Nat.lt_or_ge i 8 with h8 | h8
  · simp [show ¬ (i ≥ 8) from Nat.not_le.mpr h8]
  · rcases Nat.lt_or_ge i 32 with h32 | h32
    · have hsub : i - 8 < 24 := by omega
      simp [h8, hsub, Nat.testBit_shiftRight, Nat.add_sub_cancel' h8]
    · have hfalse : n.testBit i = false :=
        Nat.testBit_lt_two_pow
          (lt_of_lt_of_le hn (Nat.pow_le_pow_right (by norm_num) h32))
      have hfalse2 : (n >>> 8).testBit (i - 8) = false := by
        rw [Nat.testBit_shiftRight, Nat.add_sub_cancel' h8]
        exact hfalse
      simp [hfalse, hfalse2]

theorem WndProc_size_during_drag (c : ℚ) (t : DxApp) (w h : Int)
    (hdev : t.m_DeviceCreated = true) (hres : t.m_IsResizing = true)
    (hmin : t.m_IsMinimized = false) (hmax : t.m_IsMaximized = false) :
    WndProc c t (Msg.size w h SizeKind.restored) = (applySizeOnly t (w, h), 0) := by
  simp [WndProc, hdev, hres, hmin, hmax, applySizeOnly]

theorem runMsgs_sizes (c : ℚ) (sizes : List (Int × Int)) : ∀ t : DxApp,
    t.m_DeviceCreated = true → t.m_IsResizing = true →
    t.m_IsMinimized = false → t.m_IsMaximized = false →
    runMsgs c t (sizeMsgs sizes) = (sizes.foldl applySizeOnly t, 0) := by
  induction sizes with
  | nil => intro t _ _ _ _; rfl
  | cons p rest ih =>
    intro t hdev hres hmin hmax
    have h1 := WndProc_size_during_drag c t p.1 p.2 hdev hres hmin hmax
    have h2 := ih (applySizeOnly t p) hdev hres hmin hmax
    simp only [sizeMsgs, List.map_cons, runMsgs] at h2 ⊢
    rw [h1]
    simp [h2]

theorem runMsgs_append (c : ℚ) (l1 l2 : List Msg) : ∀ s : DxApp,
    runMsgs c s (l1 ++ l2)
      = ((runMsgs c (runMsgs c s l1).1 l2).1,
         (runMsgs c s l1).2 + (runMsgs c (runMsgs c s l1).1 l2).2) := by
  induction l1 with
  | nil => intro s; simp [runMsgs]
  | cons m ms ih =>
    intro s
    have h := ih ((WndProc c s m).1)
    simp only [List.cons_append, runMsgs, Nat.add_assoc, List.append_eq]
    rw [h]

theorem foldl_applySizeOnly_flags (sizes : List (Int × Int)) : ∀ t : DxApp,
    (sizes.foldl applySizeOnly t).m_IsPaused = t.m_IsPaused ∧
    (sizes.foldl applySizeOnly t).m_IsResizing = t.m_IsResizing ∧
    (sizes.foldl applySizeOnly t).m_DeviceCreated = t.m_DeviceCreated ∧
    (sizes.foldl applySizeOnly t).m_IsMinimized = t.m_IsMinimized ∧
    (sizes.foldl applySizeOnly t).m_IsMaximized = t.m_IsMaximized := by
  induction sizes with
  | nil => intro t; exact ⟨rfl, rfl, rfl, rfl, rfl⟩
  | cons p rest ih => intro t; exact ih (applySizeOnly t p)

theorem WF_sync0 : WF sync0 := ⟨by decide, by decide⟩

theorem WF_syncPending : WF syncPending := ⟨by decide, by decide⟩

/-! Claim theorems. -/

/-- C1: upon return from FlushCommandQueue on a well-formed state, the
fence completed value has reached the newly signalled target, the queue
has fully drained, and memory reflects execution of all work enqueued
before the call; and among the primitive action traces of the program
operations, the fence-event wait occurs only in the trace of
FlushCommandQueue, so flush is the only operation that blocks the
calling thread on GPU completion. -/
theorem C1_flush_postcondition :
    (∀ s : SyncState, WF s →
      (FlushCommandQueue s).m_CurrentFence ≤ (FlushCommandQueue s).gpu.completed
      ∧ (FlushCommandQueue s).gpu.queue = []
      ∧ (FlushCommandQueue s).gpu.mem = execQueue s.gpu.queue s.gpu.mem)
    ∧ (∀ (op : CpuOp) (a : DxApp) (act : CpuAction),
        act ∈ opActions op a → isWait act = true → op = CpuOp.flushOp) := by
  constructor
  · intro s h
    rw [FlushCommandQueue_spec s h]
    exact ⟨Nat.le_refl _, rfl, rfl⟩
  · intro op a act hmem hw
    cases op with
    | updateOp =>
      simp [opActions] at hmem
      subst hmem
      simp [isWait] at hw
    | mouseMoveOp => simp [opActions] at hmem
    | drawBodyOp =>
      simp [opActions] at hmem
      rcases hmem with h | h <;> subst h <;> simp [isWait] at hw
    | resizeBodyOp =>
      simp [opActions] at hmem
      subst hmem
      simp [isWait] at hw
    | initBodyOp =>
      simp [opActions] at hmem
      subst hmem
      simp [isWait] at hw
    | flushOp => rfl

/-- C1 witness: the postcondition at a concrete mid-run state with
pending work, and the blocking classification at a concrete wait. -/
theorem C1_witness :
    ((FlushCommandQueue syncPending).m_CurrentFence
        ≤ (FlushCommandQueue syncPending).gpu.completed
      ∧ (FlushCommandQueue syncPending).gpu.queue = []
      ∧ (FlushCommandQueue syncPending).gpu.mem
          = execQueue syncPending.gpu.queue syncPending.gpu.mem)
    ∧ CpuOp.flushOp = CpuOp.flushOp := by
  constructor
  · exact C1_flush_postcondition.1 syncPending WF_syncPending
  · exact C1_flush_postcondition.2 CpuOp.flushOp appDev
      (CpuAction.waitFenceEvent 1) (by decide) (by decide)

/-- C2: every FlushCommandQueue advances m_CurrentFence by exactly one
before its wait point; no operation of the app ever decreases the
counter; the targets signalled by successive flush calls are strictly
increasing; well-formedness (last signalled value at or above the
confirmed completed value) is preserved by every operation, and after
the wait the completed value is at most the signalled target. -/
theorem C2_fence_monotonic :
    (∀ s : SyncState, (FlushCommandQueue s).m_CurrentFence = s.m_CurrentFence + 1)
    ∧ (∀ (s : SyncState) (m n : Nat), m < n →
        (flushN m s).m_CurrentFence < (flushN n s).m_CurrentFence)
    ∧ (∀ (ops : List AppOp) (a : DxApp),
        a.sync.m_CurrentFence ≤ (runApp ops a).sync.m_CurrentFence)
    ∧ (∀ (op : AppOp) (a : DxApp), WF a.sync → WF (appStep op a).sync)
    ∧ (∀ s : SyncState, WF s →
        (FlushCommandQueue s).gpu.completed
          ≤ (FlushCommandQueue s).m_CurrentFence) := by
  refine ⟨fun s => rfl, ?_, fun ops a => runApp_fence_mono ops a, appStep_WF, ?_⟩
  · intro s m n hmn
    rw [flushN_fence m s, flushN_fence n s]
    omega
  · intro s h
    rw [FlushCommandQueue_spec s h]

/-- C2 witness: the increment, strict growth over two flushes, the
preserved invariant across a draw, and the completed bound, all at
concrete states. -/
theorem C2_witness :
    (FlushCommandQueue sync0).m_CurrentFence = sync0.m_CurrentFence + 1
    ∧ (flushN 0 sync0).m_CurrentFence < (flushN 2 sync0).m_CurrentFence
    ∧ WF (appStep AppOp.draw app0).sync
    ∧ (FlushCommandQueue sync0).gpu.completed
        ≤ (FlushCommandQueue sync0).m_CurrentFence :=
  ⟨C2_fence_monotonic.1 sync0,
   C2_fence_monotonic.2.1 sync0 0 2 (by decide),
   C2_fence_monotonic.2.2.2.1 AppOp.draw app0 WF_sync0,
   C2_fence_monotonic.2.2.2.2 sync0 WF_sync0⟩

/-- C3: a successful Draw advances the current back-buffer index by one
modulo the buffer count two, so after exactly two successful draws the
index returns to its original value. -/
theorem C3_back_buffer_cycling (s : DxApp)
    (h : s.m_CurrentBackBuffer < s_SwapChainBufferCount) :
    (Draw s).m_CurrentBackBuffer
        = (s.m_CurrentBackBuffer + 1) % s_SwapChainBufferCount
    ∧ (Draw (Draw s)).m_CurrentBackBuffer = s.m_CurrentBackBuffer := by
  refine ⟨rfl, ?_⟩
  show ((s.m_CurrentBackBuffer + 1) % s_SwapChainBufferCount + 1)
      % s_SwapChainBufferCount = s.m_CurrentBackBuffer
  unfold s_SwapChainBufferCount at h ⊢
  omega

/-- C3 witness: the cycle at the initial state with index zero. -/
theorem C3_witness :
    (Draw app0).m_CurrentBackBuffer
        = (app0.m_CurrentBackBuffer + 1) % s_SwapChainBufferCount
    ∧ (Draw (Draw app0)).m_CurrentBackBuffer = app0.m_CurrentBackBuffer :=
  C3_back_buffer_cycling app0 (by decide)

/-- C4: a completed OnResize leaves the swap-chain buffer count at the
configured constant two, the viewport sized exactly to the client area,
the projection matrix with aspect ratio width over height, and the
current back-buffer index reset to zero, for every client size at or
above the minimum track size and any nonzero half-fov cotangent. -/
theorem C4_resize_postconditions (cot : ℚ) (s : DxApp)
    (hcot : cot ≠ 0) (hw : 200 ≤ s.m_ClientWidth) (hh : 200 ≤ s.m_ClientHeight) :
    (OnResize cot s).m_SwapChainBufferCountLive = s_SwapChainBufferCount
    ∧ (OnResize cot s).m_ScreenViewport.width = (s.m_ClientWidth : ℚ)
    ∧ (OnResize cot s).m_ScreenViewport.height = (s.m_ClientHeight : ℚ)
    ∧ projAspect (OnResize cot s).m_Proj
        = (s.m_ClientWidth : ℚ) / (s.m_ClientHeight : ℚ)
    ∧ (OnResize cot s).m_CurrentBackBuffer = 0 := by
  refine ⟨rfl, rfl, rfl, ?_, rfl⟩
  have hw0 : (s.m_ClientWidth : ℚ) ≠ 0 := Int.cast_ne_zero.mpr (by omega)
  have hh0 : (s.m_ClientHeight : ℚ) ≠ 0 := Int.cast_ne_zero.mpr (by omega)
  show cot / (cot / ((s.m_ClientWidth : ℚ) / (s.m_ClientHeight : ℚ)))
      = (s.m_ClientWidth : ℚ) / (s.m_ClientHeight : ℚ)
  field_simp
  ring

/-- C4 witness: the postconditions at the initial 800 by 600 state with
cotangent one. -/
theorem C4_witness :
    (OnResize 1 app0).m_SwapChainBufferCountLive = s_SwapChainBufferCount
    ∧ (OnResize 1 app0).m_ScreenViewport.width = (app0.m_ClientWidth : ℚ)
    ∧ (OnResize 1 app0).m_ScreenViewport.height = (app0.m_ClientHeight : ℚ)
    ∧ projAspect (OnResize 1 app0).m_Proj
        = (app0.m_ClientWidth : ℚ) / (app0.m_ClientHeight : ℚ)
    ∧ (OnResize 1 app0).m_CurrentBackBuffer = 0 :=
  C4_resize_postconditions 1 app0 one_ne_zero (by decide) (by decide)

/-- C5: on the success path CreateDefaultBuffer allocates a
default-heap buffer of byteSize bytes in the common state and an
upload-heap buffer of the same size in the generic-read state, records
exactly the transition to copy-destination, the full-range copy, and
the transition to generic-read, and returns the default buffer; if
either allocation fails it reports the error and returns null with
nothing recorded. -/
theorem C5_create_default_buffer (data : List Nat) (byteSize : Nat) (b : Bool) :
    (CreateDefaultBuffer ⟨true, true⟩ data byteSize).defaultRes
        = some ⟨HeapType.defaultHeap, byteSize, ResState.common⟩
    ∧ (CreateDefaultBuffer ⟨true, true⟩ data byteSize).uploadRes
        = some ⟨HeapType.uploadHeap, byteSize, ResState.genericRead⟩
    ∧ (CreateDefaultBuffer ⟨true, true⟩ data byteSize).cmds
        = [Cmd.transition defaultBufferId ResState.common ResState.copyDest,
           Cmd.copyBuffer defaultBufferId uploadBufferId byteSize,
           Cmd.transition defaultBufferId ResState.copyDest ResState.genericRead]
    ∧ (CreateDefaultBuffer ⟨true, true⟩ data byteSize).returned = some defaultBufferId
    ∧ (CreateDefaultBuffer ⟨false, b⟩ data byteSize).returned = none
    ∧ (CreateDefaultBuffer ⟨false, b⟩ data byteSize).errorReported = true
    ∧ (CreateDefaultBuffer ⟨false, b⟩ data byteSize).cmds = []
    ∧ (CreateDefaultBuffer ⟨true, false⟩ data byteSize).returned = none
    ∧ (CreateDefaultBuffer ⟨true, false⟩ data byteSize).errorReported = true
    ∧ (CreateDefaultBuffer ⟨true, false⟩ data byteSize).cmds = [] :=
  ⟨rfl, rfl, rfl, rfl, rfl, rfl, rfl, rfl, rfl, rfl⟩

/-- C6: the upload round trip: for every byte list, creating the
default buffer over it, executing the recorded commands and flushing
leaves the default-heap buffer contents byte-identical to the source
data. -/
theorem C6_upload_round_trip (data : List Nat) :
    (FlushCommandQueue
        (enqueueWork (CreateDefaultBuffer ⟨true, true⟩ data data.length).cmds
          (uploadInitialSync data))).gpu.mem defaultBufferId = data := by
  have hwf :
      WF (enqueueWork (CreateDefaultBuffer ⟨true, true⟩ data data.length).cmds
        (uploadInitialSync data)) :=
    WF_enqueueWork _ _ ⟨Nat.le_refl 0, by simp [uploadInitialSync, signalValues]⟩
  rw [FlushCommandQueue_spec _ hwf]
  simp [uploadInitialSync, uploadInitialMem, enqueueWork, execQueue, execCmds,
    execCmd, CreateDefaultBuffer, defaultBufferId, uploadBufferId,
    List.take_length]

/-- C7 counterexample: at the UINT maximum the 32-bit addition wraps:
CalcConstantBufferByteSize of 4294967295 is 0, while rounding up to the
next multiple of 256 gives 4294967296, so the universally quantified
claim fails at that x. -/
theorem C7_counterexample :
    CalcConstantBufferByteSize 4294967295 = 0
    ∧ roundUpTo256 4294967295 = 4294967296
    ∧ CalcConstantBufferByteSize 4294967295 ≠ roundUpTo256 4294967295 := by
  refine ⟨?_, ?_, ?_⟩ <;> decide

/-- C7 (amended): for every UINT value x whose increment by 255 does
not overflow 32 bits, CalcConstantBufferByteSize x is x rounded up to
the next multiple of 256: it equals roundUpTo256 x, is at least x, is
below x + 256, and is divisible by 256. -/
theorem C7_alignment (x : Nat) (h : x + 255 < UINT_MOD) :
    CalcConstantBufferByteSize x = roundUpTo256 x
    ∧ x ≤ CalcConstantBufferByteSize x
    ∧ CalcConstantBufferByteSize x < x + 256
    ∧ 256 ∣ CalcConstantBufferByteSize x := by
  have hmod : (x + 255) % UINT_MOD = x + 255 := Nat.mod_eq_of_lt h
  have hmask := and_mask_FFFFFF00 (x + 255) h
  have hcalc : CalcConstantBufferByteSize x = 256 * ((x + 255) / 256) := by
    unfold CalcConstantBufferByteSize
    rw [hmod, hmask]
  refine ⟨hcalc, ?_, ?_, ?_⟩
  · rw [hcalc]; omega
  · rw [hcalc]; omega
  · rw [hcalc]; exact Dvd.intro _ rfl

/-- C7 witness: the five sample points named by the spec. -/
theorem C7_witness :
    CalcConstantBufferByteSize 1 = roundUpTo256 1
    ∧ CalcConstantBufferByteSize 255 = roundUpTo256 255
    ∧ CalcConstantBufferByteSize 256 = roundUpTo256 256
    ∧ CalcConstantBufferByteSize 257 = roundUpTo256 257
    ∧ CalcConstantBufferByteSize 1024 = roundUpTo256 1024 :=
  ⟨(C7_alignment 1 (by decide)).1, (C7_alignment 255 (by decide)).1,
   (C7_alignment 256 (by decide)).1, (C7_alignment 257 (by decide)).1,
   (C7_alignment 1024 (by decide)).1⟩

/-- C8 counterexample: with every step succeeding but the quality query
reporting zero supported levels, InitD3D does not report and return
false: a release build stores zero and returns true, and a debug build
dies on the assert instead of returning false. -/
theorem C8_counterexample :
    InitD3D envReleaseZeroLevels = InitOutcome.returnedTrue 0
    ∧ InitD3D envDebugZeroLevels = InitOutcome.assertAborted
    ∧ InitD3D envReleaseZeroLevels ≠ InitOutcome.returnedFalse
    ∧ InitD3D envDebugZeroLevels ≠ InitOutcome.returnedFalse := by
  refine ⟨?_, ?_, ?_, ?_⟩ <;> decide

/-- C8 (amended): when the earlier startup steps succeed, InitD3D
reports and returns false exactly on a failed multisample quality-level
query; a successful query with zero levels only trips the debug-build
assert, and a release build continues and returns true. -/
theorem C8_msaa_failure_modes (e : InitEnv)
    (hf : e.factoryOk = true) (hd : e.hardwareDeviceOk = true)
    (hfe : e.fenceOk = true) (hc : e.commandObjectsOk = true)
    (hs : e.swapChainOk = true) (hh : e.descriptorHeapsOk = true) :
    (e.msaaQueryOk = false → InitD3D e = InitOutcome.returnedFalse)
    ∧ (e.msaaQueryOk = true → e.debugBuild = true →
        e.msaaNumQualityLevels = 0 → InitD3D e = InitOutcome.assertAborted)
    ∧ (e.msaaQueryOk = true → e.debugBuild = false →
        InitD3D e = InitOutcome.returnedTrue e.msaaNumQualityLevels) := by
  refine ⟨?_, ?_, ?_⟩
  · intro hq
    simp [InitD3D, hf, hd, hfe, hq]
  · intro hq hdb hn
    simp [InitD3D, hf, hd, hfe, hq, hdb, hn, hc, hs, hh]
  · intro hq hdb
    simp [InitD3D, hf, hd, hfe, hq, hdb, hc, hs, hh]

/-- C8 witness: the query-failure and debug-assert outcomes at concrete
environments. -/
theorem C8_witness :
    InitD3D envQueryFailed = InitOutcome.returnedFalse
    ∧ InitD3D envDebugZeroLevels = InitOutcome.assertAborted :=
  ⟨(C8_msaa_failure_modes envQueryFailed rfl rfl rfl rfl rfl rfl).1 rfl,
   (C8_msaa_failure_modes envDebugZeroLevels rfl rfl rfl rfl rfl rfl).2.1
     rfl rfl rfl⟩

/-- C9 counterexample: one left-drag OnMouseMove from the initial state
with a large horizontal delta pushes the azimuth theta beyond a full
turn of two pi, and far above the polar bound, so the azimuth is not
clamped into any valid range, contrary to the claim. -/
theorem C9_counterexample :
    (OnMouseMove true false 100000 0 app0).m_Theta > 2 * piF
    ∧ ¬ (OnMouseMove true false 100000 0 app0).m_Theta ≤ piF - 1 / 10 := by
  have h : (OnMouseMove true false 100000 0 app0).m_Theta
      = (3 / 2) * piF + XMConvertToRadians ((1 / 4) * ((100000 - 0 : Int) : ℚ)) := rfl
  rw [h]
  constructor <;> norm_num [XMConvertToRadians, piF]

/-- C9 (amended): after every OnMouseMove the polar angle stays clamped
to the range 0.1 to pi minus 0.1 and the radius to the range 3 to 15,
provided they started there; the azimuth theta is not clamped: a left
drag adds its converted pixel delta to theta unmodified. -/
theorem C9_camera_clamping (s : DxApp) (l r : Bool) (x y : Int)
    (hp1 : 1 / 10 ≤ s.m_Phi) (hp2 : s.m_Phi ≤ piF - 1 / 10)
    (hr1 : 3 ≤ s.m_Radius) (hr2 : s.m_Radius ≤ 15) :
    (1 / 10 ≤ (OnMouseMove l r x y s).m_Phi
      ∧ (OnMouseMove l r x y s).m_Phi ≤ piF - 1 / 10)
    ∧ (3 ≤ (OnMouseMove l r x y s).m_Radius
      ∧ (OnMouseMove l r x y s).m_Radius ≤ 15)
    ∧ (l = true → (OnMouseMove l r x y s).m_Theta
        = s.m_Theta
          + XMConvertToRadians ((1 / 4) * ((x - s.m_LastMousePosX : Int) : ℚ))) := by
  have hlohi : (1 / 10 : ℚ) ≤ piF - 1 / 10 := by norm_num [piF]
  cases l with
  | true => exact ⟨Clamp_bounds _ _ _ hlohi, ⟨hr1, hr2⟩, fun _ => rfl⟩
  | false =>
    cases r with
    | true =>
      refine ⟨⟨hp1, hp2⟩, Clamp_bounds _ _ _ (by norm_num), ?_⟩
      intro hl
      simp at hl
    | false =>
      refine ⟨⟨hp1, hp2⟩, ⟨hr1, hr2⟩, ?_⟩
      intro hl
      simp at hl

/-- C9 witness: the clamping invariant at the initial camera state
under a small left drag. -/
theorem C9_witness :
    (1 / 10 ≤ (OnMouseMove true false 10 20 app0).m_Phi
      ∧ (OnMouseMove true false 10 20 app0).m_Phi ≤ piF - 1 / 10)
    ∧ (3 ≤ (OnMouseMove true false 10 20 app0).m_Radius
      ∧ (OnMouseMove true false 10 20 app0).m_Radius ≤ 15)
    ∧ (true = true → (OnMouseMove true false 10 20 app0).m_Theta
        = app0.m_Theta
          + XMConvertToRadians ((1 / 4) * ((10 - app0.m_LastMousePosX : Int) : ℚ))) :=
  C9_camera_clamping app0 true false 10 20 (by norm_num [app0, piF])
    (by norm_num [app0, piF]) (by norm_num [app0]) (by norm_num [app0])

/-- C10: during an interactive resize drag, every restored size event
between enter-size-move and exit-size-move only updates the stored
client dimensions, triggers no OnResize, and leaves the app paused; the
exit-size-move ending the drag runs OnResize exactly once with the
flags cleared. -/
theorem C10_resize_drag (cot : ℚ) (s : DxApp) (sizes : List (Int × Int))
    (hdev : s.m_DeviceCreated = true) (hmin : s.m_IsMinimized = false)
    (hmax : s.m_IsMaximized = false) :
    (∀ k : Nat,
      runMsgs cot s (Msg.enterSizeMove :: sizeMsgs (sizes.take k))
        = ((sizes.take k).foldl applySizeOnly
            { s with m_IsPaused := true, m_IsResizing := true }, 0)
      ∧ (runMsgs cot s
          (Msg.enterSizeMove :: sizeMsgs (sizes.take k))).1.m_IsPaused = true)
    ∧ runMsgs cot s ((Msg.enterSizeMove :: sizeMsgs sizes) ++ [Msg.exitSizeMove])
        = (OnResize cot
            { (sizes.foldl applySizeOnly
                { s with m_IsPaused := true, m_IsResizing := true }) with
              m_IsPaused := false, m_IsResizing := false }, 1) := by
  have hrun : ∀ szs : List (Int × Int),
      runMsgs cot s (Msg.enterSizeMove :: sizeMsgs szs)
        = (szs.foldl applySizeOnly
            { s with m_IsPaused := true, m_IsResizing := true }, 0) := by
    intro szs
    have h := runMsgs_sizes cot szs
      { s with m_IsPaused := true, m_IsResizing := true } hdev rfl hmin hmax
    simp only [runMsgs]
    rw [show WndProc cot s Msg.enterSizeMove
      = ({ s with m_IsPaused := true, m_IsResizing := true }, 0) from rfl]
    simp [h]
  constructor
  · intro k
    refine ⟨hrun (sizes.take k), ?_⟩
    rw [hrun (sizes.take k)]
    exact (foldl_applySizeOnly_flags (sizes.take k)
      { s with m_IsPaused := true, m_IsResizing := true }).1
  · rw [runMsgs_append cot (Msg.enterSizeMove :: sizeMsgs sizes)
      [Msg.exitSizeMove] s, hrun sizes]
    rfl

/-- C10 witness: a drag over one intermediate size at the initialized
state. -/
theorem C10_witness :
    (∀ k : Nat,
      runMsgs 1 appDev
        (Msg.enterSizeMove :: sizeMsgs ([((300 : Int), (400 : Int))].take k))
        = (([((300 : Int), (400 : Int))].take k).foldl applySizeOnly
            { appDev with m_IsPaused := true, m_IsResizing := true }, 0)
      ∧ (runMsgs 1 appDev
          (Msg.enterSizeMove ::
            sizeMsgs ([((300 : Int), (400 : Int))].take k))).1.m_IsPaused = true)
    ∧ runMsgs 1 appDev
        ((Msg.enterSizeMove :: sizeMsgs [((300 : Int), (400 : Int))])
          ++ [Msg.exitSizeMove])
        = (OnResize 1
            { ([((300 : Int), (400 : Int))].foldl applySizeOnly
                { appDev with m_IsPaused := true, m_IsResizing := true }) with
              m_IsPaused := false, m_IsResizing := false }, 1) :=
  C10_resize_drag 1 appDev [((300 : Int), (400 : Int))] rfl rfl rfl

end D3D12Demo
